import Mathlib

/-!
Verification of the VFX QML scaffold startup program
(src/scaffolds/vfx/qml/src/main.cpp).

The program is a straight-line startup sequence: construct the application,
write a diagnostic line with the USD version, construct the QML engine,
publish the formatted version into the root binding context, connect the
objectCreated signal with Qt::QueuedConnection, request the load of
qrc:/main.qml, and enter the event loop.  We embed it as explicit state
passing over a process state that records the binding context, the
diagnostic stream, the registered signal connection, the queue of pending
signal deliveries, the requested exit code, and a trace of observable
events in program order.
-/

namespace Vfx

/-- Modelled from the spec: the embedded USD library boundary.  The library
itself is external to the repository; the spec describes its version query
as a pure, side-effect-free read of the build's compile/link-time identity,
so a library build is represented by its numeric version alone. -/
structure UsdLibrary where
  pxrVersion : Nat
deriving DecidableEq

/-- Modelled from the spec: pxr::UsdGetVersion(), a pure read of the
embedded library build's numeric version identity. -/
def UsdGetVersion (lib : UsdLibrary) : Nat := lib.pxrVersion

/-- Decimal digits of n accumulated least-significant first, with explicit
fuel so the recursion is structural; fuel n+1 always suffices since a
number has at most n+1 decimal digits. -/
def toDecDigitsAux : Nat → Nat → List Char → List Char
  | 0, _, acc => acc
  | fuel + 1, n, acc =>
      if n / 10 = 0 then Nat.digitChar (n % 10) :: acc
      else toDecDigitsAux fuel (n / 10) (Nat.digitChar (n % 10) :: acc)

/-- std::to_string on a non-negative integer value: its decimal textual
representation.  The stream insertion operator of the diagnostic line
formats the same value identically. -/
def to_string (n : Nat) : String := ⟨toDecDigitsAux (n + 1) n []⟩

/-- A Qt URL, as used for the qrc resource reference. -/
structure QUrl where
  url : String
deriving DecidableEq

/-- A non-null QML root object produced by instantiating a UI resource.
The objectCreated callback receives a possibly-null pointer, modelled as
an Option of this type. -/
structure QObject where
  id : Nat
deriving DecidableEq

/-- Qt connection delivery types relevant here; main.cpp passes
Qt::QueuedConnection at the connect call. -/
inductive ConnectionType
  | AutoConnection
  | DirectConnection
  | QueuedConnection
deriving DecidableEq

/-- Observable startup events, recorded in program order: a call of the
version query with its result, an attempted diagnostic stream write, a
publish into the binding context, the signal connection, the load request,
entry into the event loop, and a delivery of the objectCreated
notification to the connected handler. -/
inductive Event
  | queryVersion (result : Nat)
  | diagnosticWrite (line : String)
  | publishProperty (key : String) (value : String)
  | connectSignal (conn : ConnectionType)
  | loadRequest (u : QUrl)
  | execStart
  | delivered (obj : Option QObject) (objUrl : QUrl)
deriving DecidableEq

/-- The process state threaded through main: the engine root context's
properties, the diagnostic stream contents and health, the registered
objectCreated connection (delivery type and the url captured by the
lambda), the queue of pending queued-connection deliveries, the exit code
requested via QCoreApplication::exit, and the event trace. -/
structure ProcState where
  contextProperties : List (String × String)
  diagnosticLines : List String
  streamOk : Bool
  connection : Option (ConnectionType × QUrl)
  pending : List (Option QObject × QUrl)
  exitCode : Option Int
  events : List Event
deriving DecidableEq

/-- The environment a run of main is exposed to: the embedded library
build, the health of the diagnostic stream, and the outcome the engine
produces for the requested resource (the root object, or none when the
resource fails to resolve). -/
structure Env where
  lib : UsdLibrary
  streamOk : Bool
  loadOutcome : Option QObject
deriving DecidableEq

/-- The compiled-in resource reference of main.cpp: qrc:/main.qml. -/
def mainUrl : QUrl := ⟨("qrc:/main.qml")⟩

/-- Append one event to the trace. -/
def emitEvent (e : Event) (s : ProcState) : ProcState :=
  { s with events := s.events ++ [e] }

/-- The state at entry of main: everything empty, stream health from the
environment. -/
def initState (env : Env) : ProcState :=
  ⟨[], [], env.streamOk, none, [], none, []⟩

/-- A call of pxr::UsdGetVersion() as it occurs in main: returns the
library's version identity and records the query in the trace; it reads no
process state and writes none. -/
def callUsdGetVersion (lib : UsdLibrary) (s : ProcState) : Nat × ProcState :=
  (UsdGetVersion lib, emitEvent (Event.queryVersion (UsdGetVersion lib)) s)

/-- The std::cout diagnostic insertion: the write is attempted (and
recorded in the trace) unconditionally; the line reaches the stream only
when the stream is healthy, and a failed stream never signals an error
(iostream insertions set state bits rather than throw by default). -/
def coutWrite (line : String) (s : ProcState) : ProcState :=
  let s1 := emitEvent (Event.diagnosticWrite line) s
  if s1.streamOk then { s1 with diagnosticLines := s1.diagnosticLines ++ [line] } else s1

/-- Insert or overwrite one key in a key-value list, the update semantics
of QQmlContext::setContextProperty. -/
def setEntry (key value : String) : List (String × String) → List (String × String)
  | [] => [(key, value)]
  | (k, v) :: rest =>
      if k = key then (k, value) :: rest else (k, v) :: setEntry key value rest

/-- QQmlContext::setContextProperty on the engine's root context. -/
def setContextProperty (key value : String) (s : ProcState) : ProcState :=
  let s1 := emitEvent (Event.publishProperty key value) s
  { s1 with contextProperties := setEntry key value s1.contextProperties }

/-- QObject::connect of the engine's objectCreated signal to the lambda of
main.cpp: records the delivery type and the url value captured by the
lambda. -/
def connectObjectCreated (conn : ConnectionType) (capturedUrl : QUrl) (s : ProcState) : ProcState :=
  let s1 := emitEvent (Event.connectSignal conn) s
  { s1 with connection := some (conn, capturedUrl) }

/-- QCoreApplication::exit: asks the event loop to return the given code. -/
def QCoreApplication.exit (code : Int) (s : ProcState) : ProcState :=
  { s with exitCode := some code }

/-- The body of the objectCreated lambda in main.cpp: if the object is
null and the captured url equals the delivered one, request exit with the
sentinel -1; otherwise do nothing. -/
def objectCreatedHandler (url : QUrl) (obj : Option QObject) (objUrl : QUrl)
    (s : ProcState) : ProcState :=
  if obj = none ∧ url = objUrl then QCoreApplication.exit (-1) s else s

/-- Run the connected handler on one emitted (object, url) pair, recording
the delivery in the trace. -/
def deliverTo (capturedUrl : QUrl) (obj : Option QObject) (objUrl : QUrl)
    (s : ProcState) : ProcState :=
  objectCreatedHandler capturedUrl obj objUrl (emitEvent (Event.delivered obj objUrl) s)

/-- Modelled from the spec: emission of the objectCreated signal by the
engine.  With a direct (or same-thread automatic) connection the slot runs
in line; with Qt::QueuedConnection the arguments are enqueued and the slot
runs on the same logical thread in a later turn of the event loop, after
the emitting call stack unwinds. -/
def emitObjectCreated (obj : Option QObject) (objUrl : QUrl) (s : ProcState) : ProcState :=
  match s.connection with
  | none => s
  | some (ConnectionType.QueuedConnection, _) =>
      { s with pending := s.pending ++ [(obj, objUrl)] }
  | some (_, capturedUrl) => deliverTo capturedUrl obj objUrl s

/-- QQmlApplicationEngine::load on the resource reference: the load
request is recorded, the engine resolves the resource with the outcome the
environment dictates, and objectCreated is emitted with that outcome and
the requested url. -/
def engineLoad (url : QUrl) (outcome : Option QObject) (s : ProcState) : ProcState :=
  emitObjectCreated outcome url (emitEvent (Event.loadRequest url) s)

/-- Modelled from the spec: the event loop draining its queue of pending
queued-connection deliveries in order; a requested exit stops the loop and
discards the rest. -/
def deliverAll : List (Option QObject × QUrl) → ProcState → ProcState
  | [], s => s
  | (obj, u) :: rest, s =>
      if s.exitCode.isSome then s
      else
        match s.connection with
        | none => deliverAll rest s
        | some (_, capturedUrl) => deliverAll rest (deliverTo capturedUrl obj u s)

/-- QGuiApplication::exec: enter the event loop and process the pending
deliveries. -/
def execLoop (s : ProcState) : ProcState :=
  deliverAll s.pending { (emitEvent Event.execStart s) with pending := [] }

/-- State after the diagnostic line of main.cpp: the first version query
followed by the std::cout insertion of the formatted value. -/
def stateAfterDiagnostic (env : Env) : ProcState :=
  let p := callUsdGetVersion env.lib (initState env)
  coutWrite (("USD Version: ") ++ to_string p.1) p.2

/-- State after the publish of main.cpp: the second version query followed
by setContextProperty of the usdVersion key with the formatted value. -/
def stateAfterPublish (env : Env) : ProcState :=
  let p := callUsdGetVersion env.lib (stateAfterDiagnostic env)
  setContextProperty ("usdVersion") (to_string p.1) p.2

/-- State after the connect call of main.cpp: the objectCreated lambda is
registered with Qt::QueuedConnection, capturing the resource url. -/
def stateAfterConnect (env : Env) : ProcState :=
  connectObjectCreated ConnectionType.QueuedConnection mainUrl (stateAfterPublish env)

/-- State after engine.load(url) returns, before app.exec() runs. -/
def stateAfterLoad (env : Env) : ProcState :=
  engineLoad mainUrl env.loadOutcome (stateAfterConnect env)

/-- The whole of main: diagnostic, publish, connect, load, exec. -/
def runMain (env : Env) : ProcState :=
  execLoop (stateAfterLoad env)

/-- The results of the version query calls recorded in a trace. -/
def queryResults : List Event → List Nat
  | [] => []
  | Event.queryVersion v :: rest => v :: queryResults rest
  | _ :: rest => queryResults rest

/-- The key-value pairs of the publish events recorded in a trace. -/
def publishes : List Event → List (String × String)
  | [] => []
  | Event.publishProperty k v :: rest => (k, v) :: publishes rest
  | _ :: rest => publishes rest

/-- The lines of the attempted diagnostic writes recorded in a trace. -/
def diagWrites : List Event → List String
  | [] => []
  | Event.diagnosticWrite line :: rest => line :: diagWrites rest
  | _ :: rest => diagWrites rest

/-- The (object, url) pairs of the handler deliveries recorded in a
trace. -/
def deliveredEvents : List Event → List (Option QObject × QUrl)
  | [] => []
  | Event.delivered obj u :: rest => (obj, u) :: deliveredEvents rest
  | _ :: rest => deliveredEvents rest

lemma runMain_events (env : Env) :
    (runMain env).events =
      [Event.queryVersion (UsdGetVersion env.lib),
       Event.diagnosticWrite (("USD Version: ") ++ to_string (UsdGetVersion env.lib)),
       Event.queryVersion (UsdGetVersion env.lib),
       Event.publishProperty ("usdVersion") (to_string (UsdGetVersion env.lib)),
       Event.connectSignal ConnectionType.QueuedConnection,
       Event.loadRequest mainUrl,
       Event.execStart,
       Event.delivered env.loadOutcome mainUrl] := by
  obtain ⟨⟨v⟩, b, outcome⟩ := env
  cases b <;> cases outcome <;> rfl

lemma runMain_exitCode (env : Env) :
    (runMain env).exitCode = if env.loadOutcome = none then some (-1) else none := by
  obtain ⟨⟨v⟩, b, outcome⟩ := env
  cases b <;> cases outcome <;> rfl

lemma runMain_context (env : Env) :
    (runMain env).contextProperties = [(("usdVersion"), to_string (UsdGetVersion env.lib))] := by
  obtain ⟨⟨v⟩, b, outcome⟩ := env
  cases b <;> cases outcome <;> rfl

lemma toDecDigitsAux_cons_ne_nil (fuel : Nat) :
    ∀ n c acc, ¬ toDecDigitsAux fuel n (c :: acc) = [] := by
  induction fuel with
  | zero => intro n c acc; simp [toDecDigitsAux]
  | succ fuel ih =>
      intro n c acc
      simp only [toDecDigitsAux]
      split
      · simp
      · exact ih (n / 10) (Nat.digitChar (n % 10)) (c :: acc)

lemma toDecDigitsAux_step_ne_nil (fuel n : Nat) (acc : List Char) :
    ¬ toDecDigitsAux (fuel + 1) n acc = [] := by
  simp only [toDecDigitsAux]
  split
  · simp
  · exact toDecDigitsAux_cons_ne_nil fuel (n / 10) (Nat.digitChar (n % 10)) acc

lemma to_string_ne_empty (n : Nat) : ¬ to_string n = "" := by
  intro h
  have h2 : toDecDigitsAux (n + 1) n [] = ([] : List Char) := congrArg String.data h
  exact toDecDigitsAux_step_ne_nil n n [] h2

/-- C1: the run of main requests exit with the sentinel status -1 exactly
when the objectCreated callback is delivered with an absent object and the
requested url, equivalently exactly when the resource fails to resolve;
with a present object the sentinel path is never taken. -/
theorem C1_sentinel_exit_iff_absent_object_delivered (env : Env) :
    ((runMain env).exitCode = some (-1) ↔
        Event.delivered none mainUrl ∈ (runMain env).events) ∧
    ((runMain env).exitCode = some (-1) ↔ env.loadOutcome = none) := by
  rw [runMain_exitCode, runMain_events]
  cases h : env.loadOutcome <;> simp

/-- C2: in the event trace of main, the publish of the formatted version
token into the binding context occurs at a strictly earlier program-order
position than the load request for the UI resource. -/
theorem C2_publish_happens_before_load (env : Env) :
    ∃ i j, i < j ∧
      ∃ hi : i < (runMain env).events.length, ∃ hj : j < (runMain env).events.length,
        (runMain env).events.get ⟨i, hi⟩
            = Event.publishProperty ("usdVersion") (to_string (UsdGetVersion env.lib)) ∧
        (runMain env).events.get ⟨j, hj⟩ = Event.loadRequest mainUrl := by
  rw [runMain_events]
  exact ⟨3, 5, by omega, by simp, by simp, rfl, rfl⟩

/-- C3: a callback delivery whose url differs from the one captured at the
connect call leaves the process state exactly as it was, whether or not the
delivered object is present: no state change and no exit request. -/
theorem C3_mismatched_identifier_ignored (url objUrl : QUrl) (obj : Option QObject)
    (s : ProcState) (h : ¬ url = objUrl) :
    objectCreatedHandler url obj objUrl s = s := by
  unfold objectCreatedHandler
  rw [if_neg]
  exact fun hc => h hc.2

theorem C3_mismatched_identifier_ignored_witness :
    objectCreatedHandler mainUrl none ⟨("qrc:/other.qml")⟩ (initState ⟨⟨2405⟩, true, none⟩)
      = initState ⟨⟨2405⟩, true, none⟩ :=
  C3_mismatched_identifier_ignored mainUrl ⟨("qrc:/other.qml")⟩ none
    (initState ⟨⟨2405⟩, true, none⟩) (by decide)

theorem C4_counterexample_version_query_performed_twice :
    (queryResults (runMain ⟨⟨2405⟩, true, none⟩).events).length = 2 ∧
    ¬ (queryResults (runMain ⟨⟨2405⟩, true, none⟩).events).length = 1 := by
  decide

/-- C4 (amended): the version query is performed exactly twice per process
at startup, once for the diagnostic and once for the publish; both calls
return the same token of the same build, and the binding context receives
the token's display-formatted value. -/
theorem C4_amended_two_queries_same_immutable_token (env : Env) :
    queryResults (runMain env).events
        = [UsdGetVersion env.lib, UsdGetVersion env.lib] ∧
    (runMain env).contextProperties
        = [(("usdVersion"), to_string (UsdGetVersion env.lib))] := by
  refine ⟨?_, runMain_context env⟩
  rw [runMain_events]
  rfl

/-- C5: the version query is idempotent within one process: a second call,
made in the state the first call left behind, yields the same formatted
textual result as the first. -/
theorem C5_queryVersion_idempotent (lib : UsdLibrary) (s : ProcState) :
    to_string (callUsdGetVersion lib s).1
      = to_string (callUsdGetVersion lib (callUsdGetVersion lib s).2).1 := rfl

/-- C6: for every library build, the formatted version token is a
non-empty string, and both query calls of one run of main format to that
same token (same build, same token across repeated calls in one
process). -/
theorem C6_formatted_token_nonempty_and_deterministic (env : Env) :
    ¬ to_string (UsdGetVersion env.lib) = "" ∧
    List.map to_string (queryResults (runMain env).events)
      = [to_string (UsdGetVersion env.lib), to_string (UsdGetVersion env.lib)] := by
  refine ⟨to_string_ne_empty (UsdGetVersion env.lib), ?_⟩
  rw [runMain_events]
  rfl

/-- C7: the binding context is written exactly once in a run of main (one
publish event carrying the usdVersion key), the context already holds its
final contents at the publish step, before the connect and load steps, and
no later step of the run modifies it. -/
theorem C7_context_written_once_before_load (env : Env) :
    publishes (runMain env).events
        = [(("usdVersion"), to_string (UsdGetVersion env.lib))] ∧
    (stateAfterPublish env).contextProperties
        = [(("usdVersion"), to_string (UsdGetVersion env.lib))] ∧
    (runMain env).contextProperties = (stateAfterPublish env).contextProperties := by
  obtain ⟨⟨v⟩, b, outcome⟩ := env
  refine ⟨?_, ?_, ?_⟩ <;> cases b <;> cases outcome <;> rfl

/-- C8: the objectCreated connection is registered with queued delivery;
no delivery of the notification has happened by the time engine.load
returns (it is only pending), and the single delivery happens later, in
the exec phase of the same single-threaded run. -/
theorem C8_queued_delivery_after_load_unwinds (env : Env) :
    (stateAfterConnect env).connection
        = some (ConnectionType.QueuedConnection, mainUrl) ∧
    deliveredEvents (stateAfterLoad env).events = [] ∧
    (stateAfterLoad env).pending = [(env.loadOutcome, mainUrl)] ∧
    deliveredEvents (runMain env).events = [(env.loadOutcome, mainUrl)] := by
  obtain ⟨⟨v⟩, b, outcome⟩ := env
  refine ⟨?_, ?_, ?_, ?_⟩ <;> cases b <;> cases outcome <;> rfl

/-- C9: the diagnostic emission is best-effort: a failed stream changes
neither the event trace nor the binding context nor the exit code compared
to a healthy stream, and the publish and load steps are reached in every
run. -/
theorem C9_diagnostic_failure_never_aborts_startup (env : Env) :
    (runMain ⟨env.lib, false, env.loadOutcome⟩).events
        = (runMain ⟨env.lib, true, env.loadOutcome⟩).events ∧
    (runMain ⟨env.lib, false, env.loadOutcome⟩).contextProperties
        = (runMain ⟨env.lib, true, env.loadOutcome⟩).contextProperties ∧
    (runMain ⟨env.lib, false, env.loadOutcome⟩).exitCode
        = (runMain ⟨env.lib, true, env.loadOutcome⟩).exitCode ∧
    Event.publishProperty ("usdVersion") (to_string (UsdGetVersion env.lib))
        ∈ (runMain env).events ∧
    Event.loadRequest mainUrl ∈ (runMain env).events := by
  refine ⟨?_, ?_, ?_, ?_, ?_⟩
  · rw [runMain_events, runMain_events]
  · rw [runMain_context, runMain_context]
  · rw [runMain_exitCode, runMain_exitCode]
  · rw [runMain_events]; simp
  · rw [runMain_events]; simp

/-- C10: one and the same formatted token appears both in the diagnostic
line written at startup and as the value published into the binding
context: both are the decimal text of the version identity of the
environment's library build, even though they come from two separate
query calls. -/
theorem C10_diagnostic_and_published_tokens_equal (env : Env) :
    ∃ t, diagWrites (runMain env).events = [("USD Version: ") ++ t] ∧
      publishes (runMain env).events = [(("usdVersion"), t)] ∧
      t = to_string (UsdGetVersion env.lib) := by
  refine ⟨to_string (UsdGetVersion env.lib), ?_, ?_, rfl⟩ <;>
    · rw [runMain_events]
      rfl

end Vfx
